import Mathlib

/-!
Verification development for the rsr recursive search-and-replace utility.

The source (src/main.rs) is shallowly embedded below: `StringReplacer` and
`RSRInstance` mirror the Rust structs of the same names; file-system state is
an association list from paths to contents; the external regex engine is
modelled as a structure of matching/replacing functions; fallible I/O is
driven by an explicit oracle of injected outcomes.
-/

namespace RSR

/-- Model of Rust char whitespace classification, restricted to the ASCII
whitespace characters that occur in this development. -/
def isWS (c : Char) : Bool := c = ' ' || c = '\t' || c = '\n' || c = '\r'

/-- Model of Rust str::trim: strip leading and trailing whitespace. -/
def trimChars (cs : List Char) : List Char :=
  ((cs.dropWhile isWS).reverse.dropWhile isWS).reverse

/-- String-level wrapper for `trimChars` (Rust `line.trim()`). -/
def trimS (s : String) : String := String.mk (trimChars s.data)

/-- Decimal digit character (for digits 0-9). -/
def digitChar (n : Nat) : Char := Char.ofNat (48 + n)

/-- Fuel-driven decimal digit accumulation. -/
def natDigits (fuel n : Nat) (acc : List Char) : List Char :=
  match fuel with
  | 0 => acc
  | fuel + 1 =>
    if n < 10 then digitChar n :: acc
    else natDigits fuel (n / 10) (digitChar (n % 10) :: acc)

/-- Model of Rust integer Display formatting for a line counter. -/
def natToStr (n : Nat) : String := String.mk (natDigits (n + 1) n [])

/-- Model of the Rust format specifier padding a field to width 8,
left-justified, with spaces. -/
def padLeft8 (s : String) : String :=
  s ++ String.mk (List.replicate (8 - s.length) ' ')

/-- External capability: a compiled regular expression, reduced to the two
operations the program uses (regex::Regex::is_match and replace_all with a
template). -/
structure Regex where
  isMatch : String → Bool
  replaceAll : String → String → String

/-- Fuel-driven leftmost non-overlapping replacement of a literal pattern. -/
def replaceAllCharsF (pat tmpl : List Char) : Nat → List Char → List Char
  | _, [] => []
  | 0, t => t
  | fuel + 1, c :: rest =>
    if pat ≠ [] ∧ pat.isPrefixOf (c :: rest) then
      tmpl ++ replaceAllCharsF pat tmpl fuel (rest.drop (pat.length - 1))
    else
      c :: replaceAllCharsF pat tmpl fuel rest

/-- Does `pat` occur as a contiguous substring of the text? -/
def containsChars (pat : List Char) : List Char → Bool
  | [] => decide (pat = [])
  | c :: rest => pat.isPrefixOf (c :: rest) || containsChars pat rest

/-- Modelled external capability: the regex compiled from a literal pattern
(no metacharacters) used with a literal template (no capture references):
is_match is substring containment and replace_all substitutes every leftmost
non-overlapping occurrence. -/
def litRegex (pat : String) : Regex where
  isMatch := fun t => containsChars pat.data t.data
  replaceAll := fun t tmpl =>
    String.mk (replaceAllCharsF pat.data tmpl.data t.data.length t.data)

/-- Modelled external capability: the regex compiled from the pattern
matching any amount of any (non-newline) character, as built by
StringReplacer::new when no search expression is given.  It matches every
text; its replace_all is modelled for single-line text, where the engine
yields the full match followed by a trailing empty match, so a non-empty
text produces the template twice. -/
def matchAllRegex : Regex where
  isMatch := fun _ => true
  replaceAll := fun t tmpl => if t.isEmpty then tmpl else tmpl ++ tmpl

/-- Embedding of struct StringReplacer (src/main.rs lines 9-12). -/
structure StringReplacer where
  search_expression : Option Regex
  replace_pattern : Option String

/-- Embedding of StringReplacer::new (lines 15-33): when no search
expression is supplied but a replace pattern is, the search expression is
coerced to the match-everything pattern. -/
def StringReplacer.new (search_expression : Option Regex)
    (replace_pattern : Option String) : StringReplacer :=
  if search_expression.isNone && replace_pattern.isSome then
    { search_expression := some matchAllRegex, replace_pattern := replace_pattern }
  else
    { search_expression := search_expression, replace_pattern := replace_pattern }

/-- Embedding of StringReplacer::matches (lines 35-40). -/
def StringReplacer.matches (self : StringReplacer) (text : String) : Bool :=
  match self.search_expression with
  | some expression => expression.isMatch text
  | none => true

/-- Embedding of StringReplacer::has_search (lines 42-44). -/
def StringReplacer.has_search (self : StringReplacer) : Bool :=
  self.search_expression.isSome

/-- Embedding of StringReplacer::has_replace (lines 46-48). -/
def StringReplacer.has_replace (self : StringReplacer) : Bool :=
  self.replace_pattern.isSome

/-- Embedding of StringReplacer::do_replace (lines 50-58). -/
def StringReplacer.do_replace (self : StringReplacer) (text : String) : String :=
  match self.search_expression with
  | some search =>
    match self.replace_pattern with
    | some replace => search.replaceAll text replace
    | none => text
  | none => text

/-- C3: do_replace returns the text unchanged when no search pattern is
configured, returns it unchanged when a search pattern is configured but no
replacement template is, and otherwise delegates to the pattern capability
replacing every non-overlapping match by the template; the concrete literal
instance shows the non-overlapping leftmost replacement. -/
theorem do_replace_spec :
    (∀ (r : StringReplacer) (text : String),
      (r.search_expression = none → r.do_replace text = text) ∧
      (r.replace_pattern = none → r.do_replace text = text) ∧
      (∀ s tmpl, r.search_expression = some s → r.replace_pattern = some tmpl →
        r.do_replace text = s.replaceAll text tmpl)) ∧
    (StringReplacer.new (some (litRegex "aa")) (some "X")).do_replace "aaaab" = "XXb" := by
  refine ⟨fun r text => ⟨?_, ?_, ?_⟩, by decide⟩
  · intro h
    simp [StringReplacer.do_replace, h]
  · intro h
    cases hs : r.search_expression <;> simp [StringReplacer.do_replace, hs, h]
  · intro s tmpl hs ht
    simp [StringReplacer.do_replace, hs, ht]

/-- Witness for C3 at a concrete replacer with no search pattern. -/
theorem do_replace_spec_witness :
    (StringReplacer.new none none).do_replace "abc" = "abc" :=
  (do_replace_spec.1 (StringReplacer.new none none) "abc").1 rfl

/-- C4: constructing with search absent and replace present coerces the
search pattern to the match-everything pattern, so has_search is true and
the matcher matches any non-empty text. -/
theorem new_coerces_match_all (tmpl : String) :
    (StringReplacer.new none (some tmpl)).has_search = true ∧
    (StringReplacer.new none (some tmpl)).search_expression = some matchAllRegex ∧
    (∀ text : String, text ≠ "" → (StringReplacer.new none (some tmpl)).matches text = true) :=
  ⟨rfl, rfl, fun _ _ => rfl⟩

/-- Witness for C4 at a concrete template and non-empty text. -/
theorem new_coerces_match_all_witness :
    (StringReplacer.new none (some "x")).has_search = true ∧
    (StringReplacer.new none (some "x")).matches "a" = true :=
  ⟨(new_coerces_match_all "x").1, (new_coerces_match_all "x").2.2 "a" (by decide)⟩

/-- A file path, modelled as a directory part plus a file name (the OsStr
filename of every path in the model is present and valid UTF-8). -/
structure FsPath where
  dir : String
  name : String
deriving DecidableEq

/-- Display form of a path (Rust Path::to_string_lossy). -/
def FsPath.display (p : FsPath) : String := p.dir ++ "/" ++ p.name

/-- Embedding of Path::with_file_name: same directory, new file name. -/
def FsPath.with_file_name (p : FsPath) (n : String) : FsPath :=
  { dir := p.dir, name := n }

/-- The file system: an association list from paths to file contents.
Permission bits are not tracked; only the success or failure of the
permission copy is modelled (via the oracle below). -/
abbrev FS := List (FsPath × String)

/-- Contents of the file at `p`, or none when no such file exists. -/
def fsGet (fs : FS) (p : FsPath) : Option String :=
  match fs with
  | [] => none
  | (q, c) :: rest => if q = p then some c else fsGet rest p

/-- Create or overwrite the file at `p` with contents `c`. -/
def fsSet (fs : FS) (p : FsPath) (c : String) : FS :=
  match fs with
  | [] => [(p, c)]
  | (q, d) :: rest => if q = p then (p, c) :: rest else (q, d) :: fsSet rest p c

/-- Delete the file at `p` (removal of an existing file is modelled as
always succeeding, mirroring remove_file on a file this process created). -/
def fsRemove (fs : FS) (p : FsPath) : FS :=
  match fs with
  | [] => []
  | (q, d) :: rest => if q = p then fsRemove rest p else (q, d) :: fsRemove rest p

/-- Embedding of std::fs::rename semantics on the model: fails (none) when
the source does not exist, otherwise moves the contents to the destination,
overwriting it. -/
def fsRename (fs : FS) (src dst : FsPath) : Option FS :=
  match fsGet fs src with
  | none => none
  | some c => some (fsSet (fsRemove fs src) dst c)

/-- An emitted console message.  `info s` is output produced through the
info macro (printed only when the quiet flag is off); `line s` is output
produced through an unconditional println. -/
inductive OutMsg where
  | info (s : String)
  | line (s : String)
deriving DecidableEq

/-- What actually reaches the console for a given quiet setting: info
messages are dropped when quiet is set, println output always appears. -/
def printedOutput (quiet : Bool) (msgs : List OutMsg) : List String :=
  match msgs with
  | [] => []
  | OutMsg.info s :: rest =>
    if quiet then printedOutput quiet rest else s :: printedOutput quiet rest
  | OutMsg.line s :: rest => s :: printedOutput quiet rest

/-- Oracle of injected environment outcomes for processing one file:
whether the k-th read_line of the file fails, whether the k-th write_all to
the temporary file fails, the j-th line read from standard input (none for
a failed read), and whether the permission copy and the temp-over-original
rename fail. -/
structure IOOracle where
  readFails : Nat → Bool
  writeFails : Nat → Bool
  stdin : Nat → Option String
  permCopyFails : Bool
  renameTmpFails : Bool

/-- An oracle in which every operation succeeds and standard input always
supplies the given response. -/
def okOracle (resp : String) : IOOracle where
  readFails := fun _ => false
  writeFails := fun _ => false
  stdin := fun _ => some resp
  permCopyFails := false
  renameTmpFails := false

/-- Embedding of struct RSRInstance (lines 61-66). -/
structure RSRInstance where
  filename_replacer : StringReplacer
  text_replacer : StringReplacer
  prompt : Bool
  quiet : Bool

/-- Embedding of RSRInstance::confirm (lines 309-321): with prompting
disabled the answer is unconditionally yes; with prompting enabled the
message is printed (unconditionally), a line is read from standard input,
and the answer is yes exactly when the trimmed response is the single
letter y; a failed read counts as no.  Returns the decision together with
the console output it produced. -/
def RSRInstance.confirm (self : RSRInstance) (message : String)
    (stdinLine : Option String) : Bool × List OutMsg :=
  match self.prompt with
  | true =>
    let msgs := [OutMsg.line (message ++ " ... Confirm [y/N]: ")]
    match stdinLine with
    | some user_response => (trimS user_response == "y", msgs)
    | none => (false, msgs)
  | false => (true, [])

/-- C10: confirm returns true unconditionally whenever prompting is
disabled; with prompting enabled it returns true exactly when the trimmed
user input equals y, and returns false (decline) when reading standard
input fails. -/
theorem confirm_spec (self : RSRInstance) (message : String)
    (stdinLine : Option String) :
    (self.prompt = false → (self.confirm message stdinLine).1 = true) ∧
    (self.prompt = true → ∀ s, stdinLine = some s →
      ((self.confirm message stdinLine).1 = true ↔ trimS s = "y")) ∧
    (self.prompt = true → stdinLine = none →
      (self.confirm message stdinLine).1 = false) := by
  refine ⟨?_, ?_, ?_⟩
  · intro h
    simp [RSRInstance.confirm, h]
  · intro h s hs
    subst hs
    simp [RSRInstance.confirm, h]
  · intro h hn
    subst hn
    simp [RSRInstance.confirm, h]

/-- Witness for C10 at a concrete instance: prompting enabled, the user
answers with y surrounded by whitespace, and the change is approved. -/
theorem confirm_spec_witness :
    ((RSRInstance.mk (StringReplacer.new none none) (StringReplacer.new none none)
      true false).confirm "msg" (some " y\n")).1 = true :=
  ((confirm_spec (RSRInstance.mk (StringReplacer.new none none)
      (StringReplacer.new none none) true false) "msg" (some " y\n")).2.1
    rfl " y\n" rfl).mpr (by decide)

/-- Split file contents into the successive results of read_line: each line
keeps its terminating newline; a final unterminated line is returned as is;
at end of file the list is exhausted (the zero-length read). -/
def linesKeepNl : List Char → List Char → List String
  | acc, [] => if acc = [] then [] else [String.mk acc.reverse]
  | acc, c :: rest =>
    if c = '\n' then String.mk (acc.reverse ++ ['\n']) :: linesKeepNl [] rest
    else linesKeepNl (c :: acc) rest

/-- The sequence of lines read_line yields for the given file contents. -/
def fileLines (s : String) : List String := linesKeepNl [] s.data

/-- Message of the info output for a file skipped because it could not be
opened (the Rust error payload text is not modelled). -/
def openFailMsg (p : String) : String :=
  "Skipping " ++ p ++ " as the the file could not be opened"

/-- Message of the unconditional output for a failed mid-stream read. -/
def readFailMsg (p : String) : String :=
  "Skipping " ++ p ++ " as not all lines could be read"

/-- Message of the unconditional output for a failed mid-stream write. -/
def writeFailMsg (p t : String) : String :=
  "Skipping " ++ p ++ " as not all lines could be written to " ++ t

/-- Message of the unconditional output when the temporary file could not
be created because it already exists. -/
def tmpOpenFailMsg (p t : String) : String :=
  "Skipping " ++ p ++ " as the the temporary file " ++ t ++ " could not be opened"

/-- Message of the unconditional output for a failed permission copy. -/
def permFailMsg (p : String) : String :=
  "Failed to match permissions for " ++ p ++ ", permissions may have changed"

/-- Message of the unconditional output for a failed rename of the
temporary file over the original. -/
def tmpRenameFailMsg (t p : String) : String :=
  "Failed to rename temporary file " ++ t ++ " to original file " ++ p

/-- Message of the unconditional output for a failed file rename. -/
def renameFailMsg (f t : String) : String :=
  "Failed to rename " ++ f ++ " to " ++ t

/-- The interactive prompt text shown before replacing one line: path,
line number, trimmed original and trimmed replacement. -/
def rewritePromptMsg (p : String) (ln : Nat) (line new_line : String) : String :=
  p ++ ":" ++ natToStr ln ++ "\n\t" ++ trimS line ++ "\n\t=>\n\t" ++ trimS new_line

/-- A search hit record: path, line number padded to 8 characters
left-justified, then the trimmed line. -/
def searchHitMsg (p : String) (ln : Nat) (line : String) : String :=
  p ++ ":" ++ padLeft8 (natToStr ln) ++ trimS line

/-- The read loop of RSRInstance::search_file_contents (lines 266-297):
`rest` is the list of lines not yet read, `k` counts the read_line calls
made so far, and `line_number` is the Rust counter (incremented before each
read).  Each matching line emits a search hit through the info channel; a
failed read emits an unconditional message and stops. -/
def searchLoop (self : RSRInstance) (pathStr : String) (oracle : IOOracle) :
    List String → Nat → Nat → List OutMsg
  | rest, k, line_number =>
    let ln := line_number + 1
    if oracle.readFails k then
      [OutMsg.line (readFailMsg pathStr)]
    else
      match rest with
      | [] => []
      | line :: more =>
        (if self.text_replacer.matches line
          then [OutMsg.info (searchHitMsg pathStr ln line)]
          else []) ++ searchLoop self pathStr oracle more (k + 1) ln

/-- Embedding of RSRInstance::search_file_contents (lines 258-307): open
the file (an info-level skip when it does not exist), then run the read
loop with the line counter starting at 0.  The file system is returned
unchanged: the function performs no writes. -/
def RSRInstance.search_file_contents (self : RSRInstance) (input_path : FsPath)
    (fs : FS) (oracle : IOOracle) : FS × List OutMsg :=
  match fsGet fs input_path with
  | some content =>
    (fs, searchLoop self input_path.display oracle (fileLines content) 0 0)
  | none => (fs, [OutMsg.info (openFailMsg input_path.display)])

/-- C7: content search never mutates the file system, and on the concrete
file with lines alpha, beta, alpha again and search pattern alpha it
reports lines 1 and 3, in file order, each as path, 8-character
left-justified line number, and the trimmed line. -/
theorem search_reporting_spec :
    (∀ (self : RSRInstance) (p : FsPath) (fs : FS) (oracle : IOOracle),
      (self.search_file_contents p fs oracle).1 = fs) ∧
    (RSRInstance.mk (StringReplacer.new none none)
        (StringReplacer.new (some (litRegex "alpha")) none)
        false false).search_file_contents
      (FsPath.mk "." "f.txt") [(FsPath.mk "." "f.txt", "alpha\nbeta\nalpha again\n")]
      (okOracle "") =
      ([(FsPath.mk "." "f.txt", "alpha\nbeta\nalpha again\n")],
       [OutMsg.info "./f.txt:1       alpha",
        OutMsg.info "./f.txt:3       alpha again"]) := by
  constructor
  · intro self p fs oracle
    unfold RSRInstance.search_file_contents
    split <;> rfl
  · decide

/-- Every message the search read loop emits is informational when no read
failure is injected. -/
theorem searchLoop_all_info (self : RSRInstance) (p : String)
    (oracle : IOOracle) (hr : ∀ k, oracle.readFails k = false) :
    ∀ (rest : List String) (k ln : Nat),
      ∀ m ∈ searchLoop self p oracle rest k ln, ∃ s, m = OutMsg.info s := by
  intro rest
  induction rest with
  | nil =>
    intro k ln m hm
    simp [searchLoop, hr] at hm
  | cons line more ih =>
    intro k ln m hm
    simp only [searchLoop, hr, if_false, Bool.false_eq_true] at hm
    rcases List.mem_append.mp hm with h | h
    · by_cases hmt : self.text_replacer.matches line = true
      · simp [hmt] at h
        exact ⟨_, h⟩
      · simp [hmt] at h
    · exact ih (k + 1) (ln + 1) m h

/-- With quiet set, a list made only of informational messages prints
nothing. -/
theorem printedOutput_true_of_all_info (msgs : List OutMsg)
    (h : ∀ m ∈ msgs, ∃ s, m = OutMsg.info s) : printedOutput true msgs = [] := by
  induction msgs with
  | nil => rfl
  | cons m rest ih =>
    obtain ⟨s, hs⟩ := h m (List.mem_cons_self m rest)
    subst hs
    simp only [printedOutput, if_true]
    exact ih fun x hx => h x (List.mem_cons_of_mem _ hx)

/-- C9: search results are emitted through the informational channel, so
when the quiet flag is set (and no read fails) a search-only run produces
no console output at all: every hit is suppressed. -/
theorem search_hits_quiet_suppressed (self : RSRInstance) (p : FsPath)
    (fs : FS) (oracle : IOOracle) (hq : self.quiet = true)
    (hr : ∀ k, oracle.readFails k = false) :
    printedOutput self.quiet ((self.search_file_contents p fs oracle).2) = [] := by
  rw [hq]
  unfold RSRInstance.search_file_contents
  split
  · exact printedOutput_true_of_all_info _
      (searchLoop_all_info self p.display oracle hr _ 0 0)
  · rfl

/-- Witness for C9: a quiet search over a file with two matching lines
prints nothing. -/
theorem search_hits_quiet_suppressed_witness :
    printedOutput true
      (((RSRInstance.mk (StringReplacer.new none none)
          (StringReplacer.new (some (litRegex "alpha")) none)
          false true).search_file_contents
        (FsPath.mk "." "f.txt")
        [(FsPath.mk "." "f.txt", "alpha\nbeta\nalpha again\n")]
        (okOracle "")).2) = [] :=
  search_hits_quiet_suppressed
    (RSRInstance.mk (StringReplacer.new none none)
      (StringReplacer.new (some (litRegex "alpha")) none) false true)
    (FsPath.mk "." "f.txt")
    [(FsPath.mk "." "f.txt", "alpha\nbeta\nalpha again\n")]
    (okOracle "") rfl (fun _ => rfl)

/-- Outcome of the rewrite read/write loop: either a mid-stream read or
write failed (with the console output produced up to and including the
failure report), or every line was read and a full replacement content was
written, in both cases together with the next stdin read index. -/
inductive RewriteResult where
  | failed (msgs : List OutMsg) (cidx : Nat)
  | ok (content : String) (msgs : List OutMsg) (cidx : Nat)
deriving DecidableEq

/-- Prepend earlier console output to a loop outcome. -/
def RewriteResult.prepend (ms : List OutMsg) : RewriteResult → RewriteResult
  | RewriteResult.failed m c => RewriteResult.failed (ms ++ m) c
  | RewriteResult.ok ct m c => RewriteResult.ok ct (ms ++ m) c

/-- True exactly on a mid-stream failure outcome. -/
def RewriteResult.isFailed : RewriteResult → Bool
  | RewriteResult.failed _ _ => true
  | RewriteResult.ok _ _ _ => false

/-- The console output of a loop outcome. -/
def RewriteResult.msgs : RewriteResult → List OutMsg
  | RewriteResult.failed m _ => m
  | RewriteResult.ok _ m _ => m

/-- The read/write loop of RSRInstance::replace_file_contents (lines
175-220): `rest` is the list of lines not yet read, `k` counts reads and
writes, `line_number` is the Rust counter (incremented before each read),
`cidx` the next stdin read index, and `acc` the content written to the
temporary file so far.  Each line is replaced through the text replacer;
when the replacement differs the change is confirmed (prompting if
enabled) and the original line is kept on decline; a failed read or write
reports unconditionally and stops. -/
def replaceLoop (self : RSRInstance) (pathStr tmpStr : String)
    (oracle : IOOracle) : List String → Nat → Nat → Nat → String → RewriteResult
  | rest, k, line_number, cidx, acc =>
    let ln := line_number + 1
    if oracle.readFails k then
      RewriteResult.failed [OutMsg.line (readFailMsg pathStr)] cidx
    else
      match rest with
      | [] => RewriteResult.ok acc [] cidx
      | line :: more =>
        let new_line := self.text_replacer.do_replace line
        let step :=
          if new_line ≠ line then
            let conf := self.confirm (rewritePromptMsg pathStr ln line new_line)
              (oracle.stdin cidx)
            ((if conf.1 then new_line else line), conf.2, cidx + 1)
          else
            (line, ([] : List OutMsg), cidx)
        if oracle.writeFails k then
          RewriteResult.failed (step.2.1 ++ [OutMsg.line (writeFailMsg pathStr tmpStr)])
            step.2.2
        else
          RewriteResult.prepend step.2.1
            (replaceLoop self pathStr tmpStr oracle more (k + 1) ln step.2.2
              (acc ++ step.1))

/-- Embedding of RSRInstance::replace_file_contents (lines 158-256): open
the source (an info-level skip when it does not exist); create the
temporary sibling file with create-new semantics (an unconditional report
and abort when it already exists); run the read/write loop with the line
counter starting at 1; on a mid-stream failure delete the temporary file
and stop, leaving the original untouched; on success flush the written
content, copy the original permissions onto the temporary file (a failed
copy is reported but non-fatal), and rename the temporary file over the
original (a failed rename is reported and leaves both files in place).
Returns the new file system, the console output, and the next stdin
index. -/
def RSRInstance.replace_file_contents (self : RSRInstance)
    (input_filename : String) (input_path : FsPath) (fs : FS)
    (oracle : IOOracle) (cidx : Nat) : FS × List OutMsg × Nat :=
  match fsGet fs input_path with
  | none => (fs, [OutMsg.info (openFailMsg input_path.display)], cidx)
  | some content =>
    let tmp_file := input_path.with_file_name (input_filename ++ ".rsr_tmp")
    match fsGet fs tmp_file with
    | some _ =>
      (fs, [OutMsg.line (tmpOpenFailMsg input_path.display tmp_file.display)], cidx)
    | none =>
      let fs1 := fsSet fs tmp_file ""
      match replaceLoop self input_path.display tmp_file.display oracle
        (fileLines content) 0 1 cidx "" with
      | RewriteResult.failed msgs cidx2 => (fsRemove fs1 tmp_file, msgs, cidx2)
      | RewriteResult.ok newContent msgs cidx2 =>
        let fs2 := fsSet fs1 tmp_file newContent
        let permMsgs :=
          if oracle.permCopyFails
            then [OutMsg.line (permFailMsg input_path.display)] else []
        if oracle.renameTmpFails then
          (fs2,
           msgs ++ permMsgs ++
             [OutMsg.line (tmpRenameFailMsg tmp_file.display input_path.display)],
           cidx2)
        else
          (fsSet (fsRemove fs2 tmp_file) input_path newContent,
           msgs ++ permMsgs, cidx2)

/-- Reading after a create/overwrite: the written path yields the new
contents, every other path is unaffected. -/
theorem fsGet_fsSet (fs : FS) (p q : FsPath) (c : String) :
    fsGet (fsSet fs p c) q = if p = q then some c else fsGet fs q := by
  induction fs with
  | nil => simp [fsSet, fsGet]
  | cons hd rest ih =>
    obtain ⟨r, d⟩ := hd
    by_cases hrp : r = p <;> by_cases hrq : r = q <;> by_cases hpq : p = q <;>
      simp_all [fsSet, fsGet]

/-- Reading after a delete: the deleted path is gone, every other path is
unaffected. -/
theorem fsGet_fsRemove (fs : FS) (p q : FsPath) :
    fsGet (fsRemove fs p) q = if p = q then none else fsGet fs q := by
  induction fs with
  | nil => simp [fsRemove, fsGet]
  | cons hd rest ih =>
    obtain ⟨r, d⟩ := hd
    by_cases hrp : r = p <;> by_cases hrq : r = q <;> by_cases hpq : p = q <;>
      simp_all [fsRemove, fsGet]

/-- C1: rewrite atomicity.  If the source file exists, the temporary file
can be created, and some read or write fails mid-stream, then afterwards
the temporary file does not exist, the original file holds exactly its
previous contents, every other path is untouched, processing of the file
stops with just the loop's output (no permission copy or rename is
attempted). -/
theorem rewrite_atomicity (self : RSRInstance) (input_filename : String)
    (input_path : FsPath) (fs : FS) (oracle : IOOracle) (cidx : Nat)
    (content : String)
    (hsrc : fsGet fs input_path = some content)
    (htmp : fsGet fs (input_path.with_file_name (input_filename ++ ".rsr_tmp")) = none)
    (hfail : (replaceLoop self input_path.display
        (input_path.with_file_name (input_filename ++ ".rsr_tmp")).display oracle
        (fileLines content) 0 1 cidx "").isFailed = true) :
    fsGet (self.replace_file_contents input_filename input_path fs oracle cidx).1
        (input_path.with_file_name (input_filename ++ ".rsr_tmp")) = none ∧
    fsGet (self.replace_file_contents input_filename input_path fs oracle cidx).1
        input_path = some content ∧
    (∀ q : FsPath, q ≠ input_path.with_file_name (input_filename ++ ".rsr_tmp") →
      fsGet (self.replace_file_contents input_filename input_path fs oracle cidx).1 q =
        fsGet fs q) ∧
    (self.replace_file_contents input_filename input_path fs oracle cidx).2.1 =
      (replaceLoop self input_path.display
        (input_path.with_file_name (input_filename ++ ".rsr_tmp")).display oracle
        (fileLines content) 0 1 cidx "").msgs := by
  have htne : input_path.with_file_name (input_filename ++ ".rsr_tmp") ≠ input_path := by
    intro h
    rw [h] at htmp
    rw [hsrc] at htmp
    exact Option.noConfusion htmp
  cases hres : replaceLoop self input_path.display
      (input_path.with_file_name (input_filename ++ ".rsr_tmp")).display oracle
      (fileLines content) 0 1 cidx "" with
  | ok ct m c =>
    rw [hres] at hfail
    exact absurd hfail (by simp [RewriteResult.isFailed])
  | failed m c =>
    simp only [RSRInstance.replace_file_contents, hsrc, htmp, hres]
    refine ⟨?_, ?_, ?_, ?_⟩
    · simp [fsGet_fsRemove]
    · simp [fsGet_fsRemove, fsGet_fsSet, htne, hsrc]
    · intro q hq
      have hq2 : input_path.with_file_name (input_filename ++ ".rsr_tmp") ≠ q :=
        fun h => hq h.symm
      simp [fsGet_fsRemove, fsGet_fsSet, hq2]
    · simp [RewriteResult.msgs]

/-- Witness for C1: a one-line file whose very first read fails; the
temporary file is gone and the original still holds its contents. -/
theorem rewrite_atomicity_witness :
    fsGet ((RSRInstance.mk (StringReplacer.new none none)
        (StringReplacer.new (some (litRegex "a")) (some "b"))
        false false).replace_file_contents "f.txt" (FsPath.mk "." "f.txt")
        [(FsPath.mk "." "f.txt", "a\n")]
        (IOOracle.mk (fun _ => true) (fun _ => false) (fun _ => none) false false) 0).1
      (FsPath.mk "." "f.txt.rsr_tmp") = none ∧
    fsGet ((RSRInstance.mk (StringReplacer.new none none)
        (StringReplacer.new (some (litRegex "a")) (some "b"))
        false false).replace_file_contents "f.txt" (FsPath.mk "." "f.txt")
        [(FsPath.mk "." "f.txt", "a\n")]
        (IOOracle.mk (fun _ => true) (fun _ => false) (fun _ => none) false false) 0).1
      (FsPath.mk "." "f.txt") = some "a\n" := by
  have h := rewrite_atomicity
    (RSRInstance.mk (StringReplacer.new none none)
      (StringReplacer.new (some (litRegex "a")) (some "b")) false false)
    "f.txt" (FsPath.mk "." "f.txt") [(FsPath.mk "." "f.txt", "a\n")]
    (IOOracle.mk (fun _ => true) (fun _ => false) (fun _ => none) false false) 0
    "a\n" (by decide) (by decide) (by decide)
  exact ⟨h.1, h.2.1⟩

/-- printedOutput distributes over concatenation of message lists. -/
theorem printedOutput_append (q : Bool) (a b : List OutMsg) :
    printedOutput q (a ++ b) = printedOutput q a ++ printedOutput q b := by
  induction a with
  | nil => rfl
  | cons m rest ih =>
    cases m with
    | info s => cases q <;> simp [printedOutput, ih]
    | line s => simp [printedOutput, ih]

/-- A list made only of unconditional messages prints the same with and
without the quiet flag. -/
theorem printedOutput_all_line (msgs : List OutMsg)
    (h : ∀ m ∈ msgs, ∃ s, m = OutMsg.line s) :
    printedOutput true msgs = printedOutput false msgs := by
  induction msgs with
  | nil => rfl
  | cons m rest ih =>
    obtain ⟨s, hs⟩ := h m (List.mem_cons_self m rest)
    subst hs
    simp only [printedOutput]
    rw [ih fun x hx => h x (List.mem_cons_of_mem _ hx)]

/-- Every console message confirm produces is unconditional output. -/
theorem confirm_msgs_all_line (self : RSRInstance) (message : String)
    (st : Option String) :
    ∀ m ∈ (self.confirm message st).2, ∃ s, m = OutMsg.line s := by
  intro m hm
  simp only [RSRInstance.confirm] at hm
  cases hp : self.prompt <;> rw [hp] at hm
  · simp at hm
  · cases st with
    | some r => simp at hm; exact ⟨_, hm⟩
    | none => simp at hm; exact ⟨_, hm⟩

/-- The console output of a prepended loop outcome. -/
theorem prepend_msgs (ms : List OutMsg) (r : RewriteResult) :
    (RewriteResult.prepend ms r).msgs = ms ++ r.msgs := by
  cases r <;> rfl

/-- Every console message the rewrite read/write loop emits — prompts and
failure reports alike — is unconditional output. -/
theorem replaceLoop_all_line (self : RSRInstance) (p t : String)
    (oracle : IOOracle) :
    ∀ (rest : List String) (k ln cidx : Nat) (acc : String),
      ∀ m ∈ (replaceLoop self p t oracle rest k ln cidx acc).msgs,
        ∃ s, m = OutMsg.line s := by
  intro rest
  induction rest with
  | nil =>
    intro k ln cidx acc m hm
    simp only [replaceLoop] at hm
    split at hm
    · simp [RewriteResult.msgs] at hm
      exact ⟨_, hm⟩
    · simp [RewriteResult.msgs] at hm
  | cons line more ih =>
    intro k ln cidx acc m hm
    simp only [replaceLoop] at hm
    split at hm
    · simp [RewriteResult.msgs] at hm
      exact ⟨_, hm⟩
    · by_cases hd : self.text_replacer.do_replace line ≠ line
      · rw [if_pos hd] at hm
        split at hm
        · simp only [RewriteResult.msgs] at hm
          rcases List.mem_append.mp hm with h | h
          · exact confirm_msgs_all_line self _ _ m h
          · simp at h
            exact ⟨_, h⟩
        · rw [prepend_msgs] at hm
          rcases List.mem_append.mp hm with h | h
          · exact confirm_msgs_all_line self _ _ m h
          · exact ih _ _ _ _ m h
      · rw [if_neg hd] at hm
        split at hm
        · simp only [RewriteResult.msgs] at hm
          rcases List.mem_append.mp hm with h | h
          · simp at h
          · simp at h
            exact ⟨_, h⟩
        · rw [prepend_msgs] at hm
          rcases List.mem_append.mp hm with h | h
          · simp at h
          · exact ih _ _ _ _ m h

/-- Under quiet, the only output the search read loop lets through is the
read-failure report. -/
theorem searchLoop_printed_true (self : RSRInstance) (p : String)
    (oracle : IOOracle) :
    ∀ (rest : List String) (k ln : Nat),
      ∀ s ∈ printedOutput true (searchLoop self p oracle rest k ln),
        s = readFailMsg p := by
  intro rest
  induction rest with
  | nil =>
    intro k ln s hs
    simp only [searchLoop] at hs
    split at hs
    · simp [printedOutput] at hs
      exact hs
    · simp [printedOutput] at hs
  | cons line more ih =>
    intro k ln s hs
    simp only [searchLoop] at hs
    split at hs
    · simp [printedOutput] at hs
      exact hs
    · rw [printedOutput_append] at hs
      rcases List.mem_append.mp hs with h | h
      · split at h <;> simp [printedOutput] at h
      · exact ih (k + 1) (ln + 1) s h

/-- C2 counterexample: with the quiet flag set and the source file missing,
the failed open of the source file produces only an informational report,
which quiet suppresses entirely — nothing is printed, refuting that this
per-file I/O error is reported unconditionally. -/
theorem open_failure_suppressed_by_quiet_cex :
    ((RSRInstance.mk (StringReplacer.new none none)
        (StringReplacer.new (some (litRegex "a")) (some "b"))
        false true).replace_file_contents "f.txt" (FsPath.mk "." "f.txt") []
        (okOracle "") 0).2.1 = [OutMsg.info (openFailMsg "./f.txt")] ∧
    printedOutput true
      (((RSRInstance.mk (StringReplacer.new none none)
          (StringReplacer.new (some (litRegex "a")) (some "b"))
          false true).replace_file_contents "f.txt" (FsPath.mk "." "f.txt") []
          (okOracle "") 0).2.1) = [] := by
  decide

/-- C2 (amended): when the source file exists, every message the content
rewriter emits — read, write, temp-file-exists, permission-copy and rename
failure reports — is unconditional, so quiet suppresses none of it; in the
content searcher the only message surviving quiet is the read-failure
report; but a failure to open the source file is reported through the
informational channel only, aborting the operation with the file system
untouched (and is therefore suppressed by quiet). -/
theorem per_file_io_error_reporting (self : RSRInstance)
    (input_filename : String) (input_path : FsPath) (fs : FS)
    (oracle : IOOracle) (cidx : Nat) :
    (∀ content, fsGet fs input_path = some content →
      printedOutput true
          ((self.replace_file_contents input_filename input_path fs oracle cidx).2.1) =
        printedOutput false
          ((self.replace_file_contents input_filename input_path fs oracle cidx).2.1)) ∧
    (∀ s ∈ printedOutput true ((self.search_file_contents input_path fs oracle).2),
      s = readFailMsg input_path.display) ∧
    (fsGet fs input_path = none →
      (self.replace_file_contents input_filename input_path fs oracle cidx).2.1 =
        [OutMsg.info (openFailMsg input_path.display)] ∧
      (self.replace_file_contents input_filename input_path fs oracle cidx).1 = fs) := by
  refine ⟨?_, ?_, ?_⟩
  · intro content hsrc
    apply printedOutput_all_line
    intro m hm
    simp only [RSRInstance.replace_file_contents, hsrc] at hm
    split at hm
    · simp at hm
      exact ⟨_, hm⟩
    · split at hm
      · next hres =>
        simp only at hm
        exact replaceLoop_all_line self _ _ oracle _ _ _ _ _ m (by rw [hres]; exact hm)
      · next nc ms c2 hres =>
        split at hm
        · simp only at hm
          rcases List.mem_append.mp hm with h | h
          · rcases List.mem_append.mp h with h2 | h2
            · exact replaceLoop_all_line self _ _ oracle _ _ _ _ _ m
                (by rw [hres]; exact h2)
            · split at h2 <;> simp at h2
              exact ⟨_, h2⟩
          · simp at h
            exact ⟨_, h⟩
        · simp only at hm
          rcases List.mem_append.mp hm with h | h
          · exact replaceLoop_all_line self _ _ oracle _ _ _ _ _ m
              (by rw [hres]; exact h)
          · split at h <;> simp at h
            exact ⟨_, h⟩
  · intro s hs
    simp only [RSRInstance.search_file_contents] at hs
    split at hs
    · exact searchLoop_printed_true self _ oracle _ 0 0 s hs
    · simp [printedOutput] at hs
  · intro hnone
    simp [RSRInstance.replace_file_contents, hnone]

/-- Witness for C2 (amended): a concrete rewrite whose first write fails
prints its failure report identically with and without quiet, and a
concrete missing file yields only the suppressible informational skip. -/
theorem per_file_io_error_reporting_witness :
    printedOutput true
        (((RSRInstance.mk (StringReplacer.new none none)
            (StringReplacer.new (some (litRegex "a")) (some "b"))
            false true).replace_file_contents "f.txt" (FsPath.mk "." "f.txt")
            [(FsPath.mk "." "f.txt", "a\n")]
            (IOOracle.mk (fun _ => false) (fun _ => true) (fun _ => none)
              false false) 0).2.1) =
      printedOutput false
        (((RSRInstance.mk (StringReplacer.new none none)
            (StringReplacer.new (some (litRegex "a")) (some "b"))
            false true).replace_file_contents "f.txt" (FsPath.mk "." "f.txt")
            [(FsPath.mk "." "f.txt", "a\n")]
            (IOOracle.mk (fun _ => false) (fun _ => true) (fun _ => none)
              false false) 0).2.1) :=
  (per_file_io_error_reporting
    (RSRInstance.mk (StringReplacer.new none none)
      (StringReplacer.new (some (litRegex "a")) (some "b")) false true)
    "f.txt" (FsPath.mk "." "f.txt") [(FsPath.mk "." "f.txt", "a\n")]
    (IOOracle.mk (fun _ => false) (fun _ => true) (fun _ => none) false false)
    0).1 "a\n" (by decide)

/-- In the rewrite read loop started at counter 1, the first line's
interactive prompt carries line number 2; the prompt heads the loop's
output. -/
theorem replaceLoop_first_prompt (self : RSRInstance) (p t : String)
    (oracle : IOOracle) (line : String) (more : List String) (cidx : Nat)
    (acc : String)
    (hread : oracle.readFails 0 = false)
    (hprompt : self.prompt = true)
    (hdiff : self.text_replacer.do_replace line ≠ line) :
    ∃ rest2, (replaceLoop self p t oracle (line :: more) 0 1 cidx acc).msgs =
      OutMsg.line (rewritePromptMsg p 2 line (self.text_replacer.do_replace line)
        ++ " ... Confirm [y/N]: ") :: rest2 := by
  simp only [replaceLoop, hread, Bool.false_eq_true, if_false]
  rw [if_pos hdiff]
  have hconf : (self.confirm
      (rewritePromptMsg p (1 + 1) line (self.text_replacer.do_replace line))
      (oracle.stdin cidx)).2 =
      [OutMsg.line (rewritePromptMsg p 2 line (self.text_replacer.do_replace line)
        ++ " ... Confirm [y/N]: ")] := by
    simp only [RSRInstance.confirm, hprompt]
    cases oracle.stdin cidx <;> norm_num
  split
  · exact ⟨_, by rw [hconf]; rfl⟩
  · rw [prepend_msgs, hconf]
    exact ⟨_, rfl⟩

/-- In the search read loop started at counter 0, the first line's hit
record carries line number 1 and heads the loop's output. -/
theorem searchLoop_first_hit (self : RSRInstance) (p : String)
    (oracle : IOOracle) (line : String) (more : List String)
    (hread : oracle.readFails 0 = false)
    (hmatch : self.text_replacer.matches line = true) :
    ∃ rest2, searchLoop self p oracle (line :: more) 0 0 =
      OutMsg.info (searchHitMsg p 1 line) :: rest2 := by
  simp only [searchLoop, hread, Bool.false_eq_true, if_false, hmatch, if_true]
  exact ⟨_, rfl⟩

/-- C5: line-numbering asymmetry.  Processing the same first line of a
file, the content-rewrite path (counter started at 1, incremented before
each read) prompts with line number 2, while the content-search path
(counter started at 0, incremented before each read) reports line
number 1. -/
theorem line_numbering_asymmetry (self : RSRInstance) (fs : FS)
    (input_path : FsPath) (input_filename : String) (oracle : IOOracle)
    (content line : String) (more : List String)
    (hlines : fileLines content = line :: more)
    (hread : oracle.readFails 0 = false)
    (hsrc : fsGet fs input_path = some content) :
    ((self.prompt = true →
      fsGet fs (input_path.with_file_name (input_filename ++ ".rsr_tmp")) = none →
      self.text_replacer.do_replace line ≠ line →
      ((self.replace_file_contents input_filename input_path fs oracle 0).2.1).head? =
        some (OutMsg.line
          (rewritePromptMsg input_path.display 2 line
            (self.text_replacer.do_replace line) ++ " ... Confirm [y/N]: ")))) ∧
    (self.text_replacer.matches line = true →
      ((self.search_file_contents input_path fs oracle).2).head? =
        some (OutMsg.info (searchHitMsg input_path.display 1 line))) := by
  constructor
  · intro hprompt htmp hdiff
    obtain ⟨rest2, hloop⟩ := replaceLoop_first_prompt self input_path.display
      (input_path.with_file_name (input_filename ++ ".rsr_tmp")).display oracle
      line more 0 "" hread hprompt hdiff
    simp only [RSRInstance.replace_file_contents, hsrc, htmp, hlines]
    cases hres : replaceLoop self input_path.display
        (input_path.with_file_name (input_filename ++ ".rsr_tmp")).display oracle
        (line :: more) 0 1 0 "" with
    | failed m c =>
      rw [hres] at hloop
      simp only [RewriteResult.msgs] at hloop
      simp [hloop]
    | ok nc m c =>
      rw [hres] at hloop
      simp only [RewriteResult.msgs] at hloop
      subst hloop
      dsimp only
      split <;> simp
  · intro hmatch
    obtain ⟨rest2, hloop⟩ := searchLoop_first_hit self input_path.display oracle
      line more hread hmatch
    simp only [RSRInstance.search_file_contents, hsrc, hlines]
    rw [hloop]
    rfl

/-- Witness for C5: a one-line file processed by both paths; the rewrite
prompt shows line number 2 and the search hit shows line number 1. -/
theorem line_numbering_asymmetry_witness :
    (((RSRInstance.mk (StringReplacer.new none none)
        (StringReplacer.new (some (litRegex "a")) (some "b"))
        true false).replace_file_contents "f.txt" (FsPath.mk "." "f.txt")
        [(FsPath.mk "." "f.txt", "a\n")] (okOracle "n") 0).2.1).head? =
      some (OutMsg.line
        (rewritePromptMsg "./f.txt" 2 "a\n"
          ((StringReplacer.new (some (litRegex "a")) (some "b")).do_replace "a\n")
          ++ " ... Confirm [y/N]: ")) ∧
    (((RSRInstance.mk (StringReplacer.new none none)
        (StringReplacer.new (some (litRegex "a")) (some "b"))
        true false).search_file_contents (FsPath.mk "." "f.txt")
        [(FsPath.mk "." "f.txt", "a\n")] (okOracle "n")).2).head? =
      some (OutMsg.info (searchHitMsg "./f.txt" 1 "a\n")) := by
  have h := line_numbering_asymmetry
    (RSRInstance.mk (StringReplacer.new none none)
      (StringReplacer.new (some (litRegex "a")) (some "b")) true false)
    [(FsPath.mk "." "f.txt", "a\n")] (FsPath.mk "." "f.txt") "f.txt"
    (okOracle "n") "a\n" "a\n" [] (by decide) rfl (by decide)
  exact ⟨h.1 rfl (by decide) (by decide), h.2 (by decide)⟩

/-- The rename step of RSRInstance::handle_file (lines 123-140): when a
filename replacement template exists, compute the new filename; when the
new path differs from the current one (clearing the print flag), confirm
and rename, reporting a failed rename unconditionally.  Returns the file
system, the console output, and the resulting print-bare-filename flag. -/
def RSRInstance.renamePhase (self : RSRInstance) (file : FsPath) (fs1 : FS)
    (oracle : IOOracle) (cidx1 : Nat) (print_filename : Bool) :
    FS × List OutMsg × Bool :=
  if self.filename_replacer.has_replace then
    let new_filename := self.filename_replacer.do_replace file.name
    let new_path := file.with_file_name new_filename
    if new_path ≠ file then
      let conf := self.confirm
        ("Rename " ++ file.display ++ " => " ++ new_path.display ++ "?")
        (oracle.stdin cidx1)
      if conf.1 then
        match fsRename fs1 file new_path with
        | some fs2 => (fs2, conf.2, false)
        | none =>
          (fs1, conf.2 ++ [OutMsg.line (renameFailMsg file.display new_path.display)],
            false)
      else (fs1, conf.2, false)
    else (fs1, [], print_filename)
  else (fs1, [], print_filename)

/-- Embedding of RSRInstance::handle_file (lines 110-156): when the
filename matches the filename pattern, dispatch the content action (the
content rewriter when a content replacement template exists, else the
content searcher when a content search pattern exists, else nothing),
then the rename step, and finally print the bare matched filename as
informational output when neither a content action nor a rename
occurred. -/
def RSRInstance.handle_file (self : RSRInstance) (file : FsPath) (fs : FS)
    (oracle : IOOracle) : FS × List OutMsg :=
  if self.filename_replacer.matches file.name then
    let st :=
      if self.text_replacer.has_replace then
        let r := self.replace_file_contents file.name file fs oracle 0
        (r.1, r.2.1, r.2.2, false)
      else if self.text_replacer.has_search then
        let r := self.search_file_contents file fs oracle
        (r.1, r.2, 0, false)
      else (fs, ([] : List OutMsg), 0, true)
    let rn := self.renamePhase file st.1 oracle st.2.2.1 st.2.2.2
    (rn.1, st.2.1 ++ rn.2.1 ++ (if rn.2.2 then [OutMsg.info file.display] else []))
  else (fs, [])

/-- C6: dispatch in handle_file.  A non-matching filename is untouched and
silent; a matching file goes to the content rewriter when a content
replacement template exists, else to the content searcher when a content
search pattern exists, else no content action occurs; the rename step runs
independently afterwards; and when neither a content action nor a rename
occurred (no filename template, or an unchanged name) the bare matched
filename is printed as informational output. -/
theorem handle_file_dispatch (self : RSRInstance) (file : FsPath) (fs : FS)
    (oracle : IOOracle) :
    (self.filename_replacer.matches file.name = false →
      self.handle_file file fs oracle = (fs, [])) ∧
    (self.filename_replacer.matches file.name = true →
      self.text_replacer.has_replace = true →
      self.handle_file file fs oracle =
        (((self.renamePhase file
            (self.replace_file_contents file.name file fs oracle 0).1 oracle
            (self.replace_file_contents file.name file fs oracle 0).2.2 false).1,
          (self.replace_file_contents file.name file fs oracle 0).2.1 ++
            (self.renamePhase file
              (self.replace_file_contents file.name file fs oracle 0).1 oracle
              (self.replace_file_contents file.name file fs oracle 0).2.2 false).2.1 ++
            (if (self.renamePhase file
                (self.replace_file_contents file.name file fs oracle 0).1 oracle
                (self.replace_file_contents file.name file fs oracle 0).2.2 false).2.2
              then [OutMsg.info file.display] else [])))) ∧
    (self.filename_replacer.matches file.name = true →
      self.text_replacer.has_replace = false →
      self.text_replacer.has_search = true →
      self.handle_file file fs oracle =
        (((self.renamePhase file (self.search_file_contents file fs oracle).1
            oracle 0 false).1,
          (self.search_file_contents file fs oracle).2 ++
            (self.renamePhase file (self.search_file_contents file fs oracle).1
              oracle 0 false).2.1 ++
            (if (self.renamePhase file (self.search_file_contents file fs oracle).1
                oracle 0 false).2.2
              then [OutMsg.info file.display] else [])))) ∧
    (self.filename_replacer.matches file.name = true →
      self.text_replacer.has_replace = false →
      self.text_replacer.has_search = false →
      self.handle_file file fs oracle =
        (((self.renamePhase file fs oracle 0 true).1,
          (self.renamePhase file fs oracle 0 true).2.1 ++
            (if (self.renamePhase file fs oracle 0 true).2.2
              then [OutMsg.info file.display] else [])))) ∧
    (self.filename_replacer.matches file.name = true →
      self.text_replacer.has_replace = false →
      self.text_replacer.has_search = false →
      self.filename_replacer.has_replace = false →
      self.handle_file file fs oracle = (fs, [OutMsg.info file.display])) ∧
    (self.filename_replacer.matches file.name = true →
      self.text_replacer.has_replace = false →
      self.text_replacer.has_search = false →
      file.with_file_name (self.filename_replacer.do_replace file.name) = file →
      self.handle_file file fs oracle = (fs, [OutMsg.info file.display])) := by
  refine ⟨?_, ?_, ?_, ?_, ?_, ?_⟩
  · intro hm
    simp [RSRInstance.handle_file, hm]
  · intro hm hr
    simp [RSRInstance.handle_file, hm, hr]
  · intro hm hr hs
    simp [RSRInstance.handle_file, hm, hr, hs]
  · intro hm hr hs
    simp [RSRInstance.handle_file, hm, hr, hs]
  · intro hm hr hs hf
    simp [RSRInstance.handle_file, RSRInstance.renamePhase, hm, hr, hs, hf]
  · intro hm hr hs hsame
    by_cases hf : self.filename_replacer.has_replace = true <;>
      simp [RSRInstance.handle_file, RSRInstance.renamePhase, hm, hr, hs, hf, hsame]

/-- Witness for C6 at a concrete configuration: no patterns at all, so a
matching file is reported by its bare name with the file system
untouched. -/
theorem handle_file_dispatch_witness :
    (RSRInstance.mk (StringReplacer.new none none) (StringReplacer.new none none)
        false false).handle_file (FsPath.mk "." "a.txt")
      [(FsPath.mk "." "a.txt", "x")] (okOracle "") =
      ([(FsPath.mk "." "a.txt", "x")], [OutMsg.info "./a.txt"]) :=
  (handle_file_dispatch
    (RSRInstance.mk (StringReplacer.new none none) (StringReplacer.new none none)
      false false) (FsPath.mk "." "a.txt") [(FsPath.mk "." "a.txt", "x")]
    (okOracle "")).2.2.2.2.1 rfl rfl rfl rfl

/-- C8: renaming.  With filename input pattern report and output template
summary, the computed name for report.txt is summary.txt; without
prompting the file is renamed to it, and with prompting enabled and the
user declining, the file keeps its name. -/
theorem rename_example :
    (StringReplacer.new (some (litRegex "report")) (some "summary")).do_replace
      "report.txt" = "summary.txt" ∧
    ((RSRInstance.mk
        (StringReplacer.new (some (litRegex "report")) (some "summary"))
        (StringReplacer.new none none) false false).handle_file
      (FsPath.mk "." "report.txt") [(FsPath.mk "." "report.txt", "data")]
      (okOracle "y")).1 = [(FsPath.mk "." "summary.txt", "data")] ∧
    ((RSRInstance.mk
        (StringReplacer.new (some (litRegex "report")) (some "summary"))
        (StringReplacer.new none none) true false).handle_file
      (FsPath.mk "." "report.txt") [(FsPath.mk "." "report.txt", "data")]
      (okOracle "n")).1 = [(FsPath.mk "." "report.txt", "data")] := by
  decide

end RSR
